import Mathlib

/-!
Shallow embedding of the `gpei_hartmann_developer` tutorial notebook.

The notebook defines one evaluation function (`hartmann_evaluation_function`),
a search space of six `[0,1]` float range parameters, a `SimpleExperiment`
with objective `"hartmann6"` (minimized) and one outcome constraint on an
`L2NormMetric`, and a trial-generation loop of 5 Sobol trials followed by
15 GP+EI trials.

Python floats are modelled as real numbers, dictionaries as association
lists with first-match lookup, and raising a `TypeError` (NumPy arithmetic
over a `None` produced by `dict.get` on a missing key) as returning `none`.
-/

namespace GpeiHartmann

/-- A Python dict of parameter names to (float) values, as an association
list; `dget` is `dict.get`, returning `none` when the key is absent. -/
def dget (d : List (String × ℝ)) (k : String) : Option ℝ :=
  d.lookup k

/-- NumPy arithmetic over an object-dtype array that contains a `None`
raises a `TypeError`; collecting the six `dict.get` results therefore only
yields a usable vector when every entry is present. -/
def allSome : List (Option ℝ) → Option (List ℝ)
  | [] => some []
  | none :: _ => none
  | some a :: rest => (allSome rest).map (a :: ·)

/-- Modelled from the spec: the α weights of the standard Hartmann6
benchmark supplied by the external library
(`ax.utils.measurement.synthetic_functions.hartmann6`, not under `src/`). -/
def hart6_alpha : List ℝ := [1.0, 1.2, 3.0, 3.2]

/-- Modelled from the spec: the A coefficient matrix of the standard
Hartmann6 benchmark. -/
def hart6_A : List (List ℝ) :=
  [[10, 3, 17, 3.5, 1.7, 8],
   [0.05, 10, 17, 0.1, 8, 14],
   [3, 3.5, 1.7, 10, 17, 8],
   [17, 8, 0.05, 10, 0.1, 14]]

/-- Modelled from the spec: the P matrix (10⁻⁴ scaled) of the standard
Hartmann6 benchmark. -/
def hart6_P : List (List ℝ) :=
  [[0.1312, 0.1696, 0.5569, 0.0124, 0.8283, 0.5886],
   [0.2329, 0.4135, 0.8307, 0.3736, 0.1004, 0.9991],
   [0.2348, 0.1451, 0.3522, 0.2883, 0.3047, 0.6650],
   [0.4047, 0.8828, 0.8732, 0.5743, 0.1091, 0.0381]]

/-- Modelled from the spec: the standard Hartmann6 benchmark function
`hartmann6`, imported by the notebook from
`ax.utils.measurement.synthetic_functions` (that module is not under
`src/`): H(x) = −Σᵢ αᵢ · exp(−Σⱼ Aᵢⱼ (xⱼ − Pᵢⱼ)²). -/
noncomputable def hartmann6 (x : List ℝ) : ℝ :=
  -(((hart6_alpha.zip (hart6_A.zip hart6_P)).map (fun api =>
      api.1 * Real.exp
        (-(((api.2.1.zip (api.2.2.zip x)).map (fun apx =>
            apx.1 * (apx.2.2 - apx.2.1) ^ 2)).sum)))).sum)

/-- The notebook's evaluation function:
`x = np.array([parameterization.get(f"x{i}") for i in range(6)])`, then
`{"hartmann6": (hartmann6(x), 0.0), "l2norm": (np.sqrt((x ** 2).sum()), 0.0)}`.
A missing key makes `dict.get` yield `None` and the subsequent NumPy
arithmetic raise, modelled as `none`. The `weight` argument is required by
the evaluation-function signature and unused. -/
noncomputable def hartmann_evaluation_function
    (parameterization : List (String × ℝ)) (weight : Option ℝ := none) :
    Option (List (String × (ℝ × ℝ))) :=
  match allSome ((List.range 6).map (fun i => dget parameterization ("x" ++ toString i))) with
  | none => none
  | some x =>
      some [("hartmann6", (hartmann6 x, 0.0)),
            ("l2norm", (Real.sqrt ((x.map (· ^ 2)).sum), 0.0))]

/-- α of the standard Hartmann6, `Fin`-indexed for the reference form. -/
def hart6_alphaF : Fin 4 → ℝ
  | ⟨0, _⟩ => 1.0
  | ⟨1, _⟩ => 1.2
  | ⟨2, _⟩ => 3.0
  | ⟨3, _⟩ => 3.2

/-- A of the standard Hartmann6, `Fin`-indexed for the reference form. -/
def hart6_AF (i : Fin 4) (j : Fin 6) : ℝ :=
  ((hart6_A.getD i.val []).getD j.val 0)

/-- P of the standard Hartmann6, `Fin`-indexed for the reference form. -/
def hart6_PF (i : Fin 4) (j : Fin 6) : ℝ :=
  ((hart6_P.getD i.val []).getD j.val 0)

/-- The spec's words for the first returned mean: "the value of the standard
Hartmann6 benchmark at x", stated in the reference mathematical form over
`Fin`-indexed sums, for comparison with the library-call embedding
`hartmann6`. -/
noncomputable def hartmann6_reference (x : Fin 6 → ℝ) : ℝ :=
  -∑ i : Fin 4,
      hart6_alphaF i *
        Real.exp (-∑ j : Fin 6, hart6_AF i j * (x j - hart6_PF i j) ^ 2)

/-- A coordinate vector (x0, ..., x5) as a `Fin 6`-indexed vector. -/
def finVec (a b c d e f : ℝ) : Fin 6 → ℝ
  | ⟨0, _⟩ => a
  | ⟨1, _⟩ => b
  | ⟨2, _⟩ => c
  | ⟨3, _⟩ => d
  | ⟨4, _⟩ => e
  | ⟨5, _⟩ => f

/-- Modelled from the spec: the library's parameter-type enumeration;
the notebook uses `ParameterType.FLOAT`. -/
inductive ParameterType
  | FLOAT
  | INT
  deriving DecidableEq

/-- Modelled from the spec: "a search-space constructor accepting ranged
parameters" — a `RangeParameter` records a name, a parameter type and
lower/upper bounds. -/
structure RangeParameter where
  name : String
  parameter_type : ParameterType
  lower : ℝ
  upper : ℝ

/-- Modelled from the spec: a `SearchSpace` holds its list of parameters. -/
structure SearchSpace where
  parameters : List RangeParameter

/-- The notebook's search space: `RangeParameter(name=f"x{i}",
parameter_type=ParameterType.FLOAT, lower=0.0, upper=1.0)` for `i` in
`range(6)`. -/
def hartmann_search_space : SearchSpace :=
  { parameters :=
      (List.range 6).map (fun i =>
        { name := "x" ++ toString i
          parameter_type := ParameterType.FLOAT
          lower := 0.0
          upper := 1.0 }) }

/-- Modelled from the spec: the library's comparison operator for outcome
constraints; the notebook uses `ComparisonOp.LEQ`. -/
inductive ComparisonOp
  | GEQ
  | LEQ
  deriving DecidableEq

/-- Modelled from the spec: `ax.metrics.l2norm.L2NormMetric` (not under
`src/`) records a metric name, the parameter names it aggregates, and a
declared noise standard deviation. -/
structure L2NormMetric where
  name : String
  param_names : List String
  noise_sd : ℝ

/-- Modelled from the spec: "a bound on a secondary metric that feasible
solutions must satisfy" — an `OutcomeConstraint` holds a metric, an op, a
bound and a relative flag. -/
structure OutcomeConstraint where
  metric : L2NormMetric
  op : ComparisonOp
  bound : ℝ
  relative : Bool

/-- Modelled from the spec: "an experiment constructor accepting a search
space, an evaluation callback, an objective name, a minimize flag, and a
list of outcome constraints". -/
structure SimpleExperiment where
  name : String
  search_space : SearchSpace
  evaluation_function :
    List (String × ℝ) → Option ℝ → Option (List (String × (ℝ × ℝ)))
  objective_name : String
  minimize : Bool
  outcome_constraints : List OutcomeConstraint

/-- The notebook's experiment construction (cell 7). -/
noncomputable def exp : SimpleExperiment :=
  { name := "test_branin"
    search_space := hartmann_search_space
    evaluation_function := fun p w => hartmann_evaluation_function p w
    objective_name := "hartmann6"
    minimize := true
    outcome_constraints :=
      [{ metric :=
           { name := "l2norm"
             param_names := (List.range 6).map (fun i => "x" ++ toString i)
             noise_sd := 0.2 }
         op := ComparisonOp.LEQ
         bound := 1.25
         relative := false }] }

/-- Modelled from the spec: "two named model-generation strategies (a
quasi-random sequence generator and a Gaussian-process/expected-improvement
generator) each exposing a `gen(n)` call returning proposed trial arms".
A generator run records which strategy produced it; for GP+EI it also
records how many evaluated trials were in the data the model was
reconstructed from (`Models.GPEI(experiment=exp, data=exp.eval())`). -/
inductive GeneratorRun
  | sobolRun : GeneratorRun
  | gpeiRun (dataTrials : Nat) : GeneratorRun
  deriving DecidableEq

/-- `exp.new_trial(generator_run=...)` appends one trial to the
experiment's trial list. -/
def new_trial (trials : List GeneratorRun) (generator_run : GeneratorRun) :
    List GeneratorRun :=
  trials ++ [generator_run]

/-- The notebook's optimization loop (cell 9): 5 iterations of
`exp.new_trial(generator_run=sobol.gen(1))` starting from an experiment
with no trials, then 15 iterations that reinitialize the GP+EI model from
the experiment's current data (`exp.eval()`, covering all trials so far)
and run `exp.new_trial(generator_run=gpei.gen(1))`. -/
def run_optimization_loop : List GeneratorRun :=
  let afterSobol :=
    (List.range 5).foldl (fun t _ => new_trial t GeneratorRun.sobolRun) []
  (List.range 15).foldl
    (fun t _ => new_trial t (GeneratorRun.gpeiRun t.length)) afterSobol

/-! ### Helper lemmas -/

/-- Collecting the six `dict.get` results succeeds exactly on the six
supplied coordinate values when all six keys are present. -/
theorem getCoords_eq (p : List (String × ℝ)) (v0 v1 v2 v3 v4 v5 : ℝ)
    (h0 : dget p "x0" = some v0) (h1 : dget p "x1" = some v1)
    (h2 : dget p "x2" = some v2) (h3 : dget p "x3" = some v3)
    (h4 : dget p "x4" = some v4) (h5 : dget p "x5" = some v5) :
    allSome ((List.range 6).map (fun i => dget p ("x" ++ toString i))) =
      some [v0, v1, v2, v3, v4, v5] := by
  rw [show List.range 6 = [0, 1, 2, 3, 4, 5] from rfl]
  simp only [List.map_cons, List.map_nil,
    show ("x" ++ toString (0 : Nat) : String) = "x0" from rfl,
    show ("x" ++ toString (1 : Nat) : String) = "x1" from rfl,
    show ("x" ++ toString (2 : Nat) : String) = "x2" from rfl,
    show ("x" ++ toString (3 : Nat) : String) = "x3" from rfl,
    show ("x" ++ toString (4 : Nat) : String) = "x4" from rfl,
    show ("x" ++ toString (5 : Nat) : String) = "x5" from rfl,
    h0, h1, h2, h3, h4, h5, allSome, Option.map_some']

/-- Full evaluation of the notebook's evaluation function when all six
coordinates are supplied. -/
theorem hartmann_evaluation_function_eq (p : List (String × ℝ))
    (w : Option ℝ) (v0 v1 v2 v3 v4 v5 : ℝ)
    (h0 : dget p "x0" = some v0) (h1 : dget p "x1" = some v1)
    (h2 : dget p "x2" = some v2) (h3 : dget p "x3" = some v3)
    (h4 : dget p "x4" = some v4) (h5 : dget p "x5" = some v5) :
    hartmann_evaluation_function p w =
      some [("hartmann6", (hartmann6 [v0, v1, v2, v3, v4, v5], 0.0)),
            ("l2norm",
             (Real.sqrt
                (v0 ^ 2 + v1 ^ 2 + v2 ^ 2 + v3 ^ 2 + v4 ^ 2 + v5 ^ 2),
              0.0))] := by
  simp only [hartmann_evaluation_function,
    getCoords_eq p v0 v1 v2 v3 v4 v5 h0 h1 h2 h3 h4 h5,
    List.map_cons, List.map_nil, List.sum_cons, List.sum_nil]
  rw [show v0 ^ 2 + (v1 ^ 2 + (v2 ^ 2 + (v3 ^ 2 + (v4 ^ 2 + (v5 ^ 2 + 0))))) =
        v0 ^ 2 + v1 ^ 2 + v2 ^ 2 + v3 ^ 2 + v4 ^ 2 + v5 ^ 2 from by ring]

/-- The library-call embedding of `hartmann6` agrees with the reference
mathematical form of the standard Hartmann6 benchmark. -/
theorem hartmann6_eq_reference (a b c d e f : ℝ) :
    hartmann6 [a, b, c, d, e, f] = hartmann6_reference (finVec a b c d e f) :=
  rfl

/-- Recognizer for Sobol-generated trials. -/
def isSobol : GeneratorRun → Bool
  | GeneratorRun.sobolRun => true
  | GeneratorRun.gpeiRun _ => false

/-- Recognizer for GP+EI-generated trials. -/
def isGpei : GeneratorRun → Bool
  | GeneratorRun.sobolRun => false
  | GeneratorRun.gpeiRun _ => true

/-! ### Claim theorems -/

/-- C1: For every input parameterization supplying all six coordinates
x0..x5, the evaluation function returns a dictionary with exactly the two
keys "hartmann6" and "l2norm", each mapped to a (mean, standard-error)
pair whose standard error equals 0.0. -/
theorem eval_function_two_metrics_zero_sem (p : List (String × ℝ))
    (w : Option ℝ) (v0 v1 v2 v3 v4 v5 : ℝ)
    (h0 : dget p "x0" = some v0) (h1 : dget p "x1" = some v1)
    (h2 : dget p "x2" = some v2) (h3 : dget p "x3" = some v3)
    (h4 : dget p "x4" = some v4) (h5 : dget p "x5" = some v5) :
    (hartmann_evaluation_function p w).map (fun r => r.map Prod.fst) =
      some ["hartmann6", "l2norm"] ∧
    (hartmann_evaluation_function p w).map (fun r => r.map (fun e => e.2.2)) =
      some [0.0, 0.0] := by
  rw [hartmann_evaluation_function_eq p w v0 v1 v2 v3 v4 v5 h0 h1 h2 h3 h4 h5]
  exact ⟨rfl, rfl⟩

/-- Witness for C1 at the all-zero parameterization. -/
theorem eval_function_two_metrics_zero_sem_witness :
    (hartmann_evaluation_function
        [("x0", (0 : ℝ)), ("x1", 0), ("x2", 0), ("x3", 0), ("x4", 0), ("x5", 0)]
        none).map (fun r => r.map Prod.fst) = some ["hartmann6", "l2norm"] ∧
    (hartmann_evaluation_function
        [("x0", (0 : ℝ)), ("x1", 0), ("x2", 0), ("x3", 0), ("x4", 0), ("x5", 0)]
        none).map (fun r => r.map (fun e => e.2.2)) = some [0.0, 0.0] :=
  eval_function_two_metrics_zero_sem
    [("x0", (0 : ℝ)), ("x1", 0), ("x2", 0), ("x3", 0), ("x4", 0), ("x5", 0)]
    none 0 0 0 0 0 0 rfl rfl rfl rfl rfl rfl

/-- C2: For every input parameterization supplying all six coordinates
x0..x5, the mean returned under the key "l2norm" equals the Euclidean norm
√(x0² + ... + x5²) of the coordinate vector. -/
theorem eval_function_l2norm_mean (p : List (String × ℝ))
    (w : Option ℝ) (v0 v1 v2 v3 v4 v5 : ℝ)
    (h0 : dget p "x0" = some v0) (h1 : dget p "x1" = some v1)
    (h2 : dget p "x2" = some v2) (h3 : dget p "x3" = some v3)
    (h4 : dget p "x4" = some v4) (h5 : dget p "x5" = some v5) :
    (hartmann_evaluation_function p w).map (fun r => r.lookup "l2norm") =
      some (some
        (Real.sqrt (v0 ^ 2 + v1 ^ 2 + v2 ^ 2 + v3 ^ 2 + v4 ^ 2 + v5 ^ 2),
         0.0)) := by
  rw [hartmann_evaluation_function_eq p w v0 v1 v2 v3 v4 v5 h0 h1 h2 h3 h4 h5]
  rfl

/-- Witness for C2: at x = (0,0,0,0,0,0) the l2norm mean equals 0.0. -/
theorem eval_function_l2norm_mean_witness :
    (hartmann_evaluation_function
        [("x0", (0 : ℝ)), ("x1", 0), ("x2", 0), ("x3", 0), ("x4", 0), ("x5", 0)]
        none).map (fun r => r.lookup "l2norm") = some (some ((0 : ℝ), 0.0)) := by
  have h :=
    eval_function_l2norm_mean
      [("x0", (0 : ℝ)), ("x1", 0), ("x2", 0), ("x3", 0), ("x4", 0), ("x5", 0)]
      none 0 0 0 0 0 0 rfl rfl rfl rfl rfl rfl
  simpa using h

/-- C3: For every input parameterization supplying all six coordinates
x0..x5, the mean returned under the key "hartmann6" equals the standard
Hartmann6 benchmark (in its reference mathematical form) at the
coordinate vector. -/
theorem eval_function_hartmann6_mean (p : List (String × ℝ))
    (w : Option ℝ) (v0 v1 v2 v3 v4 v5 : ℝ)
    (h0 : dget p "x0" = some v0) (h1 : dget p "x1" = some v1)
    (h2 : dget p "x2" = some v2) (h3 : dget p "x3" = some v3)
    (h4 : dget p "x4" = some v4) (h5 : dget p "x5" = some v5) :
    (hartmann_evaluation_function p w).map (fun r => r.lookup "hartmann6") =
      some (some (hartmann6_reference (finVec v0 v1 v2 v3 v4 v5), 0.0)) := by
  rw [hartmann_evaluation_function_eq p w v0 v1 v2 v3 v4 v5 h0 h1 h2 h3 h4 h5]
  rfl

/-- Witness for C3 at the all-zero parameterization. -/
theorem eval_function_hartmann6_mean_witness :
    (hartmann_evaluation_function
        [("x0", (0 : ℝ)), ("x1", 0), ("x2", 0), ("x3", 0), ("x4", 0), ("x5", 0)]
        none).map (fun r => r.lookup "hartmann6") =
      some (some (hartmann6_reference (finVec 0 0 0 0 0 0), 0.0)) :=
  eval_function_hartmann6_mean
    [("x0", (0 : ℝ)), ("x1", 0), ("x2", 0), ("x3", 0), ("x4", 0), ("x5", 0)]
    none 0 0 0 0 0 0 rfl rfl rfl rfl rfl rfl

/-- C4 counterexample: on the empty parameter dictionary every `dict.get`
yields `None` and the NumPy arithmetic in the function body raises a
`TypeError`; the embedding returns `none`, so evaluation is not error-free
on dictionaries missing the keys x0..x5. -/
theorem eval_function_missing_key_errors :
    hartmann_evaluation_function [] none = none :=
  rfl

/-- C4 (amended): for every parameter dictionary that supplies all six
coordinates x0..x5, the evaluation function evaluates without error. -/
theorem eval_function_total_on_complete_params (p : List (String × ℝ))
    (w : Option ℝ) (v0 v1 v2 v3 v4 v5 : ℝ)
    (h0 : dget p "x0" = some v0) (h1 : dget p "x1" = some v1)
    (h2 : dget p "x2" = some v2) (h3 : dget p "x3" = some v3)
    (h4 : dget p "x4" = some v4) (h5 : dget p "x5" = some v5) :
    (hartmann_evaluation_function p w).isSome = true := by
  rw [hartmann_evaluation_function_eq p w v0 v1 v2 v3 v4 v5 h0 h1 h2 h3 h4 h5]
  rfl

/-- Witness for the amended C4 at the all-zero parameterization. -/
theorem eval_function_total_on_complete_params_witness :
    (hartmann_evaluation_function
        [("x0", (0 : ℝ)), ("x1", 0), ("x2", 0), ("x3", 0), ("x4", 0), ("x5", 0)]
        none).isSome = true :=
  eval_function_total_on_complete_params
    [("x0", (0 : ℝ)), ("x1", 0), ("x2", 0), ("x3", 0), ("x4", 0), ("x5", 0)]
    none 0 0 0 0 0 0 rfl rfl rfl rfl rfl rfl

/-- C5: the evaluation function is pure and deterministic and its weight
argument is unused: any two weights (including the default `none`) give
equal results on the same parameterization. -/
theorem eval_function_weight_irrelevant_deterministic :
    ∀ (p : List (String × ℝ)) (w1 w2 : Option ℝ),
      hartmann_evaluation_function p w1 = hartmann_evaluation_function p w2 :=
  fun _ _ _ => rfl

/-- C6: the search space consists of exactly six range parameters named
x0..x5, each of floating-point type and bounded in [0.0, 1.0]. -/
theorem search_space_six_unit_range_float_params :
    hartmann_search_space.parameters =
      [⟨"x0", ParameterType.FLOAT, 0.0, 1.0⟩,
       ⟨"x1", ParameterType.FLOAT, 0.0, 1.0⟩,
       ⟨"x2", ParameterType.FLOAT, 0.0, 1.0⟩,
       ⟨"x3", ParameterType.FLOAT, 0.0, 1.0⟩,
       ⟨"x4", ParameterType.FLOAT, 0.0, 1.0⟩,
       ⟨"x5", ParameterType.FLOAT, 0.0, 1.0⟩] :=
  rfl

/-- C7: the experiment is configured with the search space, the evaluation
callback, objective name "hartmann6", minimize = true, and exactly one
outcome constraint: l2norm LEQ 1.25 with relative = false. -/
theorem experiment_configuration :
    exp.search_space = hartmann_search_space ∧
    exp.evaluation_function = (fun p w => hartmann_evaluation_function p w) ∧
    exp.objective_name = "hartmann6" ∧
    exp.minimize = true ∧
    exp.outcome_constraints =
      [{ metric :=
           { name := "l2norm"
             param_names := ["x0", "x1", "x2", "x3", "x4", "x5"]
             noise_sd := 0.2 }
         op := ComparisonOp.LEQ
         bound := 1.25
         relative := false }] :=
  ⟨rfl, rfl, rfl, rfl, rfl⟩

/-- C8: the optimization loop produces exactly 5 Sobol trials followed by
exactly 15 GP+EI trials (20 in total), every trial coming from one of the
two generators, with all Sobol trials before any GP+EI trial and the GP+EI
model rebuilt from the experiment's data (all trials so far: 5 + i before
the i-th GP+EI trial) at each GP+EI step. -/
theorem optimization_loop_trace :
    run_optimization_loop =
      List.replicate 5 GeneratorRun.sobolRun ++
        (List.range 15).map (fun i => GeneratorRun.gpeiRun (5 + i)) ∧
    run_optimization_loop.length = 20 ∧
    run_optimization_loop.countP isSobol = 5 ∧
    run_optimization_loop.countP isGpei = 15 ∧
    run_optimization_loop.take 5 = List.replicate 5 GeneratorRun.sobolRun := by
  decide

/-- C9: the evaluation function depends only on the values at keys x0..x5:
two parameterizations agreeing on those keys (any extra keys ignored) give
equal results. -/
theorem eval_function_depends_only_on_x0_to_x5
    (p1 p2 : List (String × ℝ)) (w : Option ℝ)
    (h : ∀ i, i < 6 →
      dget p1 ("x" ++ toString i) = dget p2 ("x" ++ toString i)) :
    hartmann_evaluation_function p1 w = hartmann_evaluation_function p2 w := by
  have hmap : (List.range 6).map (fun i => dget p1 ("x" ++ toString i)) =
      (List.range 6).map (fun i => dget p2 ("x" ++ toString i)) := by
    refine List.map_congr_left ?_
    intro i hi
    exact h i (List.mem_range.mp hi)
  simp only [hartmann_evaluation_function, hmap]

/-- Witness for C9: adding an extra key "seed" does not change the
result. -/
theorem eval_function_depends_only_on_x0_to_x5_witness :
    hartmann_evaluation_function
        [("x0", (0 : ℝ)), ("x1", 0), ("x2", 0), ("x3", 0), ("x4", 0), ("x5", 0)]
        none =
      hartmann_evaluation_function
        [("x0", (0 : ℝ)), ("x1", 0), ("x2", 0), ("x3", 0), ("x4", 0),
         ("x5", 0), ("seed", 7)] none := by
  apply eval_function_depends_only_on_x0_to_x5
  intro i hi
  interval_cases i <;> rfl

/-- C10: the constructed outcome constraint's metric is an `L2NormMetric`
over x0..x5 declared with noise_sd = 0.2, which is nonzero, while the
evaluation function always reports a standard error of 0.0 for both
metrics it returns. -/
theorem constraint_noise_sd_mismatch (p : List (String × ℝ))
    (v0 v1 v2 v3 v4 v5 : ℝ)
    (h0 : dget p "x0" = some v0) (h1 : dget p "x1" = some v1)
    (h2 : dget p "x2" = some v2) (h3 : dget p "x3" = some v3)
    (h4 : dget p "x4" = some v4) (h5 : dget p "x5" = some v5) :
    exp.outcome_constraints.map (fun c => c.metric) =
      [{ name := "l2norm"
         param_names := ["x0", "x1", "x2", "x3", "x4", "x5"]
         noise_sd := 0.2 }] ∧
    (0.2 : ℝ) ≠ 0.0 ∧
    (hartmann_evaluation_function p none).map
        (fun r => r.map (fun e => (e.1, e.2.2))) =
      some [("hartmann6", 0.0), ("l2norm", 0.0)] := by
  refine ⟨rfl, by norm_num, ?_⟩
  rw [hartmann_evaluation_function_eq p none v0 v1 v2 v3 v4 v5
    h0 h1 h2 h3 h4 h5]
  rfl

/-- Witness for C10 at the all-zero parameterization. -/
theorem constraint_noise_sd_mismatch_witness :
    exp.outcome_constraints.map (fun c => c.metric) =
      [{ name := "l2norm"
         param_names := ["x0", "x1", "x2", "x3", "x4", "x5"]
         noise_sd := 0.2 }] ∧
    (0.2 : ℝ) ≠ 0.0 ∧
    (hartmann_evaluation_function
        [("x0", (0 : ℝ)), ("x1", 0), ("x2", 0), ("x3", 0), ("x4", 0), ("x5", 0)]
        none).map (fun r => r.map (fun e => (e.1, e.2.2))) =
      some [("hartmann6", 0.0), ("l2norm", 0.0)] :=
  constraint_noise_sd_mismatch
    [("x0", (0 : ℝ)), ("x1", 0), ("x2", 0), ("x3", 0), ("x4", 0), ("x5", 0)]
    0 0 0 0 0 0 rfl rfl rfl rfl rfl rfl

end GpeiHartmann
